import Mathlib

/-!
Verification of the conversion-job controller of `avi_to_mp4.py`.

The Python source is shallowly embedded below: the probe-result parsing
(`get_file_info`), encoder detection (`detect_encoders_once`,
`auto_best_encoder`), the ffmpeg command builder (the `safe_copy` test and
the video/audio argument selection inside `convert_file`), the progress
computation and UI clamping (`set_ui_state`), the controller's control flow
(`convert_file` modelled as a function of the external-world outcomes it
observes), the event-loop iteration structure, and the module-level global
mutable state (`current_process` / `pause_event` / `cancel_event`).

Floats in the source are modelled as rationals; process-level effects
(what ffprobe/ffmpeg return, whether the output file exists and its size
when the child exits) are inputs to the embedded controller function.
-/

namespace AviToMp4

/-- One stream entry of the ffprobe JSON output: `codec_name`, `codec_type`,
`profile`, `pix_fmt` (missing keys are the empty string, as `stream.get(k, '')`). -/
structure MediaStream where
  codec_type : String
  codec_name : String
  profile : String
  pix_fmt : String
deriving DecidableEq, Repr

/-- The `video_info` dict built by `get_file_info` (lines 353-358). -/
structure VideoInfo where
  codec_name : String
  profile : String
  pix_fmt : String
deriving DecidableEq, Repr

/-- Return value of `get_file_info` (lines 364-368): duration, first video
stream's info (`none` = the empty dict `{}`), first audio codec name. -/
structure FileInfo where
  duration : ℚ
  video : Option VideoInfo
  audio : String
deriving DecidableEq, Repr

/-- The possible outcomes of running ffprobe on a file, as `get_file_info`
distinguishes them: non-zero exit (line 342), an exception while parsing the
JSON / the duration float (line 369), or a parsed duration plus stream list. -/
inductive ProbeOutcome where
  | nonzeroExit : ProbeOutcome
  | malformed : ProbeOutcome
  | parsed (duration : ℚ) (streams : List MediaStream) : ProbeOutcome
deriving DecidableEq, Repr

/-- The stream loop of `get_file_info` (lines 352-360): the first video stream
fills `video_info` (a non-empty dict is truthy, so later video streams are
ignored); an audio stream sets `audio_codec` only while it is still the empty
string, so the result is the first non-empty audio codec name. -/
def parseStreams (streams : List MediaStream) : Option VideoInfo × String :=
  streams.foldl
    (fun acc s =>
      if s.codec_type = "video" ∧ acc.1 = none then
        (some ⟨s.codec_name, s.profile, s.pix_fmt⟩, acc.2)
      else if s.codec_type = "audio" ∧ acc.2 = "" then
        (acc.1, s.codec_name)
      else acc)
    (none, "")

/-- `get_file_info` (lines 332-371): probe failure and malformed output both
return `{'duration': 0.0, 'video': {}, 'audio': ''}`; otherwise the parsed
duration and streams. -/
def get_file_info (p : ProbeOutcome) : FileInfo :=
  match p with
  | .nonzeroExit => ⟨0, none, ""⟩
  | .malformed => ⟨0, none, ""⟩
  | .parsed d streams =>
      let vs := parseStreams streams
      ⟨d, vs.1, vs.2⟩

/-- Which of the three hardware test encodes (`test_encoder`) exited with
status zero. -/
structure EncoderDetection where
  amf : Bool
  nvenc : Bool
  qsv : Bool
deriving DecidableEq, Repr

/-- `detect_encoders_once` (lines 308-321): the capability map starts as
`{"CPU": "libx264"}` and gains an entry per hardware encoder whose test
encode succeeded, in the order AMF, NVENC, QSV. -/
def detect_encoders_once (d : EncoderDetection) : List (String × String) :=
  [("CPU", "libx264")]
    ++ (if d.amf then [("AMF", "h264_amf")] else [])
    ++ (if d.nvenc then [("NVENC", "h264_nvenc")] else [])
    ++ (if d.qsv then [("QSV", "h264_qsv")] else [])

/-- `auto_best_encoder` (lines 323-327): first of AMF, NVENC, QSV present in
the capability map, else CPU. -/
def auto_best_encoder (encoders : List (String × String)) : String :=
  if (encoders.lookup "AMF").isSome then "AMF"
  else if (encoders.lookup "NVENC").isSome then "NVENC"
  else if (encoders.lookup "QSV").isSome then "QSV"
  else "CPU"

/-- The `safe_copy` condition of `convert_file` (lines 622-627).  On a missing
video stream every `video.get(...)` is `None` and compares unequal to the
constants, so the condition is false. -/
def safe_copy (video : Option VideoInfo) (chosen : String) : Bool :=
  match video with
  | none => false
  | some v =>
      v.codec_name == "h264" && v.pix_fmt == "yuv420p" &&
        (v.profile == "Baseline" || v.profile == "Main" || v.profile == "High") &&
        chosen == "CPU"

/-- Per-encoder quality arguments (lines 636-643). -/
def qualityArgs (enc : String) : List String :=
  if enc == "libx264" then ["-preset", "medium", "-crf", "18"]
  else if enc == "h264_amf" then ["-rc", "cqp", "-qp_i", "18", "-qp_p", "18", "-qp_b", "18"]
  else if enc == "h264_nvenc" then ["-rc", "vbr", "-cq", "18", "-b:v", "0"]
  else if enc == "h264_qsv" then ["-global_quality", "18"]
  else []

/-- The video part of the command (lines 629-645): stream copy when
`safe_copy`, else re-encode with `ENCODERS[chosen]` and fixed pixel format /
profile / level plus the per-encoder quality arguments. -/
def videoArgs (video : Option VideoInfo) (chosen : String)
    (encoders : List (String × String)) : List String :=
  if safe_copy video chosen then ["-c:v", "copy"]
  else
    let enc := (encoders.lookup chosen).getD ""
    ["-c:v", enc, "-pix_fmt", "yuv420p", "-profile:v", "high", "-level", "4.1"]
      ++ qualityArgs enc

/-- The audio part of the command (lines 647-650). -/
def audioArgs (audio : String) : List String :=
  if audio == "aac" || audio == "mp3" then ["-c:a", "copy"]
  else ["-c:a", "aac", "-b:a", "192k"]

/-- The full ffmpeg argument list built by `convert_file`
(lines 609-652). -/
def build_cmd (ffmpeg input_file : String) (video : Option VideoInfo)
    (audio chosen : String) (encoders : List (String × String))
    (out_path : String) : List String :=
  [ffmpeg, "-hide_banner", "-loglevel", "error", "-y", "-i", input_file,
    "-progress", "pipe:1", "-nostats"]
    ++ videoArgs video chosen encoders
    ++ audioArgs audio
    ++ ["-movflags", "+faststart", out_path]

/-- The input-extension test of `convert_file` (line 581):
`input_file.lower().endswith(".avi")`. -/
def endsWithAviCI (s : String) : Bool :=
  List.isSuffixOf ['.', 'a', 'v', 'i'] (s.data.map Char.toLower)

/-- The percentage computation of the progress loop (line 726):
`pct = (out_time / duration) * 100 if duration else 0.0` — the division is
guarded by the truthiness test on `duration`. -/
def progress_pct (out_time duration : ℚ) : ℚ :=
  if duration ≠ 0 then out_time / duration * 100 else 0

/-- The clamp applied by `set_ui_state` (line 392) to every value before it
reaches the progress bar: `max(0, min(100, float(progress)))`. -/
def set_ui_state_progress (p : ℚ) : ℚ := max 0 (min 100 p)

/-- Terminal outcome of one `convert_file` call, one constructor per
`return` path of the source. -/
inductive Outcome where
  | toolsMissing : Outcome
  | skippedNotAvi : Outcome
  | missingFile : Outcome
  | inspectionFailed : Outcome
  | launchFailed : Outcome
  | cancelled : Outcome
  | failedExit : Outcome
  | failedEmptyOutput : Outcome
  | completed : Outcome
deriving DecidableEq, Repr

/-- Outcomes the source reports as failures (log lines starting with the
failure marker); the two skip paths and cancellation are informational. -/
def is_failure_outcome : Outcome → Bool
  | .inspectionFailed => true
  | .launchFailed => true
  | .failedExit => true
  | .failedEmptyOutput => true
  | _ => false

/-- What the launched ffmpeg run looked like from the controller's side:
whether the cancel flag was set at the in-loop check (line 695) or at the
post-loop check (line 742), the exit status `rc` (the read-exception path
sets `rc = -1`, so it is folded into a non-zero exit), and whether/at what
size the output file exists when the child has exited. -/
structure RunResult where
  cancelledInLoop : Bool
  cancelledAfter : Bool
  exitCode : Int
  outExists : Bool
  outSize : ℕ
deriving DecidableEq, Repr

/-- Everything `convert_file` observes from the outside world, as one record:
resolved tool paths (line 576), the input path and its existence, any
pre-existing file at the derived output path, the probe outcome, whether
`subprocess.Popen` succeeded (line 657), and the run result. -/
structure ConvertInput where
  toolsResolved : Bool
  fileName : String
  fileExists : Bool
  preOut : Option ℕ
  probe : ProbeOutcome
  launchOk : Bool
  run : RunResult
deriving DecidableEq, Repr

/-- Observable result of one `convert_file` call: the terminal outcome, how
many times ffprobe was invoked, how many times an ffmpeg launch was
attempted, the progress value in the terminal UI update (`none` when the
path performs no progress update), and the file present at `out_path` after
the call returns (`none` = no file; deletions are modelled as succeeding). -/
structure ConvertResult where
  outcome : Outcome
  probeCalls : ℕ
  launchCalls : ℕ
  finalProgress : Option ℚ
  outputAfter : Option ℕ
deriving DecidableEq, Repr

/-- The file at `out_path` as the run left it. -/
def runFileState (r : RunResult) : Option ℕ :=
  if r.outExists = true then some r.outSize else none

/-- The post-launch part of `convert_file` (lines 693-772): in-loop
cancellation terminates the child and deletes any output (lines 695-715);
post-loop cancellation deletes any output (lines 742-749); a non-zero exit
deletes the output only when it exists and is empty (lines 751-761); a zero
exit with missing/empty output fails without deleting (lines 763-766);
otherwise the job completes and progress is forced to 100 (line 768). -/
def post_run (r : RunResult) : ConvertResult :=
  if r.cancelledInLoop = true then
    ⟨.cancelled, 1, 1, some 0, none⟩
  else if r.cancelledAfter = true then
    ⟨.cancelled, 1, 1, some 0, none⟩
  else if r.exitCode ≠ 0 then
    ⟨.failedExit, 1, 1, some 0,
      if r.outExists = true ∧ r.outSize = 0 then none else runFileState r⟩
  else if ¬ (r.outExists = true ∧ 0 < r.outSize) then
    ⟨.failedEmptyOutput, 1, 1, some 0, runFileState r⟩
  else
    ⟨.completed, 1, 1, some 100, runFileState r⟩

/-- `convert_file` (lines 571-772) as a function of the observed
external-world behaviour: the guard cascade before the launch, then
`post_run`.  The probed duration gate is the source's `if duration == 0`
(line 602). -/
def convert_file (inp : ConvertInput) : ConvertResult :=
  if inp.toolsResolved = false then
    ⟨.toolsMissing, 0, 0, none, inp.preOut⟩
  else if endsWithAviCI inp.fileName = false then
    ⟨.skippedNotAvi, 0, 0, none, inp.preOut⟩
  else if inp.fileExists = false then
    ⟨.missingFile, 0, 0, none, inp.preOut⟩
  else if (get_file_info inp.probe).duration = 0 then
    ⟨.inspectionFailed, 1, 0, none, inp.preOut⟩
  else if inp.launchOk = false then
    ⟨.launchFailed, 1, 1, some 0, inp.preOut⟩
  else
    post_run inp.run

/-- Flag state visible to one iteration of the progress loop:
`cancelFlag` is `cancel_event.is_set()`; `pauseFlag` is whether
`pause_event` is SET (set = not paused, as the source initialises it). -/
structure LoopState where
  cancelFlag : Bool
  pauseFlag : Bool
deriving DecidableEq, Repr

/-- What one iteration of the loop does first. -/
inductive IterAction where
  | exitCancelled : IterAction
  | blockedOnPause : IterAction
  | processLine : IterAction
deriving DecidableEq, Repr

/-- The head of each loop iteration (lines 694-719): the cancel flag is
tested first (line 695); only then does the iteration reach
`pause_event.wait()` (line 717); only past both does it parse the line. -/
def loop_iteration (s : LoopState) : IterAction :=
  if s.cancelFlag = true then .exitCancelled
  else if s.pauseFlag = false then .blockedOnPause
  else .processLine

/-- The unblocking condition of `pause_event.wait()` (line 717): the wait
returns exactly when the pause event is set; no other state is consulted. -/
def pause_wait_done (s : LoopState) : Bool := s.pauseFlag

/-- The spec's wording of the same wait, for comparison: "indefinite wait
until resumed or cancelled" — it would also end when the cancel flag is
set. -/
def pause_wait_done_spec (s : LoopState) : Bool := s.pauseFlag || s.cancelFlag

/-- Whether an iteration head can go on to emit a progress event. -/
def emits_progress : IterAction → Bool
  | .processLine => true
  | _ => false

/-- Progress percentages emitted by a sequence of loop iterations, given the
flag state at the top of each iteration and the percentage its line would
report: an iteration that observes the cancel flag ends the loop
(lines 695-715), emitting nothing further. -/
def loop_events : List (LoopState × ℚ) → List ℚ
  | [] => []
  | (s, p) :: rest => if s.cancelFlag = true then [] else p :: loop_events rest

/-- The module-level mutable globals of the source (lines 376-379):
`cancel_event`, `pause_event` and `current_process` are single process-wide
objects — every job's controller reads and writes these same three. -/
structure GlobalState where
  cancelFlag : Bool
  pauseFlag : Bool
  currentOwner : Option ℕ
deriving DecidableEq, Repr

/-- The global effects of starting job `j`: `convert_file` clears the shared
`cancel_event` and sets the shared `pause_event` (lines 588-589), and the
launch overwrites the shared `current_process` with job `j`'s process
(line 657) — whatever state other jobs had there is overwritten. -/
def convert_start (j : ℕ) (_g : GlobalState) : GlobalState :=
  { cancelFlag := false, pauseFlag := true, currentOwner := some j }

/-- `cancel()` (lines 800-802): sets the single shared cancel flag. -/
def cancel_op (g : GlobalState) : GlobalState := { g with cancelFlag := true }

/-- `pause_resume()` (lines 780-798): toggles the single shared pause flag
(and signals whichever process `current_process` happens to hold). -/
def pause_resume (g : GlobalState) : GlobalState :=
  { g with pauseFlag := !g.pauseFlag }

/-- The cancel flag governing job `j`: in the source this is the one global
`cancel_event` regardless of which job reads it, which is exactly what the
per-job-ownership claim denies. -/
def cancel_flag_read (_j : ℕ) (g : GlobalState) : Bool := g.cancelFlag

/-- The pause flag governing job `j` (the one global `pause_event`). -/
def pause_flag_read (_j : ℕ) (g : GlobalState) : Bool := g.pauseFlag

/-- The process handle governing job `j` (the one global
`current_process`). -/
def process_handle_read (_j : ℕ) (g : GlobalState) : Option ℕ := g.currentOwner

/-- Concrete input for the C1 counterexample: an ffmpeg run that exits with
status 1 leaving a 5-byte partial output file. -/
def c1ExInput : ConvertInput :=
  { toolsResolved := true, fileName := "clip.avi", fileExists := true,
    preOut := none, probe := .parsed 10 [], launchOk := true,
    run := { cancelledInLoop := false, cancelledAfter := false,
             exitCode := 1, outExists := true, outSize := 5 } }

/-- Concrete input for the C1 amended witness: a job cancelled mid-loop with
a 999-byte partial output on disk. -/
def c1WitInput : ConvertInput :=
  { toolsResolved := true, fileName := "clip.avi", fileExists := true,
    preOut := none, probe := .parsed 10 [], launchOk := true,
    run := { cancelledInLoop := true, cancelledAfter := false,
             exitCode := 0, outExists := true, outSize := 999 } }

/-- Concrete input for the C5 counterexample: the probe parses successfully
with a negative duration. -/
def c5ExInput : ConvertInput :=
  { toolsResolved := true, fileName := "clip.avi", fileExists := true,
    preOut := none, probe := .parsed (-1) [], launchOk := true,
    run := { cancelledInLoop := false, cancelledAfter := false,
             exitCode := 0, outExists := true, outSize := 7 } }

/-- Concrete input for the C5 amended witness: the probe exits non-zero. -/
def c5WitInput : ConvertInput :=
  { toolsResolved := true, fileName := "clip.avi", fileExists := true,
    preOut := none, probe := .nonzeroExit, launchOk := true,
    run := { cancelledInLoop := false, cancelledAfter := false,
             exitCode := 0, outExists := false, outSize := 0 } }

/-- Concrete input for the C6 witness: a non-AVI file name. -/
def c6WitInput : ConvertInput :=
  { toolsResolved := true, fileName := "notes.txt", fileExists := true,
    preOut := none, probe := .nonzeroExit, launchOk := true,
    run := { cancelledInLoop := false, cancelledAfter := false,
             exitCode := 0, outExists := false, outSize := 0 } }

/-- Concrete input for the C7 witness: a clean run — zero exit, no
cancellation, 1024-byte output. -/
def c7WitInput : ConvertInput :=
  { toolsResolved := true, fileName := "movie.avi", fileExists := true,
    preOut := none, probe := .parsed 120 [], launchOk := true,
    run := { cancelledInLoop := false, cancelledAfter := false,
             exitCode := 0, outExists := true, outSize := 1024 } }

end AviToMp4

namespace AviToMp4

/-- Helper: `safe_copy` holds exactly when the four probed/selected
conditions of the source hold. -/
theorem safe_copy_eq_true_iff (video : Option VideoInfo) (chosen : String) :
    safe_copy video chosen = true ↔
      ∃ v, video = some v ∧ v.codec_name = "h264" ∧ v.pix_fmt = "yuv420p" ∧
        (v.profile = "Baseline" ∨ v.profile = "Main" ∨ v.profile = "High") ∧
        chosen = "CPU" := by
  cases video with
  | none => simp [safe_copy]
  | some v =>
      simp only [safe_copy, Bool.and_eq_true, Bool.or_eq_true, beq_iff_eq,
        Option.some.injEq]
      rw [or_assoc]
      constructor
      · rintro ⟨⟨⟨hc, hp⟩, hprof⟩, hch⟩
        exact ⟨v, rfl, hc, hp, hprof, hch⟩
      · rintro ⟨w, hw, hc, hp, hprof, hch⟩
        cases hw
        exact ⟨⟨⟨hc, hp⟩, hprof⟩, hch⟩

/-- Claim C2: the built command stream-copies the video (`-c:v copy`) iff the
probed codec is h264, the pixel format is yuv420p, the profile is one of
Baseline/Main/High, and the selected encoder is "CPU"; if any of the four
conditions fails, a re-encode instruction is emitted instead. -/
theorem c2_stream_copy_iff (video : Option VideoInfo) (chosen : String)
    (d : EncoderDetection) :
    videoArgs video chosen (detect_encoders_once d) = ["-c:v", "copy"] ↔
      ∃ v, video = some v ∧ v.codec_name = "h264" ∧ v.pix_fmt = "yuv420p" ∧
        (v.profile = "Baseline" ∨ v.profile = "Main" ∨ v.profile = "High") ∧
        chosen = "CPU" := by
  rw [← safe_copy_eq_true_iff video chosen]
  by_cases h : safe_copy video chosen
  · simp [videoArgs, h]
  · simp only [Bool.not_eq_true] at h
    simp [videoArgs, h, qualityArgs]

/-- Claim C3: audio passthrough (`-c:a copy`) is selected iff the probed
audio codec is "aac" or "mp3"; every other codec (including the empty,
unknown one) re-encodes to aac at 192k. -/
theorem c3_audio_passthrough (audio : String) :
    (audioArgs audio = ["-c:a", "copy"] ↔ audio = "aac" ∨ audio = "mp3") ∧
      (¬ (audio = "aac" ∨ audio = "mp3") →
        audioArgs audio = ["-c:a", "aac", "-b:a", "192k"]) := by
  by_cases h : audio = "aac" ∨ audio = "mp3"
  · constructor
    · rcases h with h | h <;> simp [audioArgs, h]
    · intro hn; exact absurd h hn
  · push_neg at h
    constructor
    · simp [audioArgs, h.1, h.2]
    · intro _; simp [audioArgs, h.1, h.2]

/-- Witness for C3 at the concrete unknown codec "vorbis". -/
theorem c3_audio_passthrough_witness :
    audioArgs "vorbis" = ["-c:a", "aac", "-b:a", "192k"] :=
  (c3_audio_passthrough "vorbis").2 (by decide)

/-- Claim C4: `auto_best_encoder` on a detection-produced capability map picks
the first available id in the fixed order AMF, NVENC, QSV, falling back to
"CPU"; the map always contains "CPU", and the lookup of the selected id is
always defined. -/
theorem c4_best_encoder (d : EncoderDetection) :
    auto_best_encoder (detect_encoders_once d) =
        (if d.amf then "AMF" else if d.nvenc then "NVENC"
          else if d.qsv then "QSV" else "CPU") ∧
      ((detect_encoders_once d).lookup "CPU").isSome = true ∧
      ((detect_encoders_once d).lookup
          (auto_best_encoder (detect_encoders_once d))).isSome = true := by
  rcases d with ⟨a, n, q⟩
  cases a <;> cases n <;> cases q <;> decide

/-- Helper: once the guard cascade is passed (tools resolved, `.avi`
extension, file present, non-zero probed duration, successful launch),
`convert_file` is `post_run` of the observed run. -/
theorem convert_file_launched (inp : ConvertInput)
    (htools : inp.toolsResolved = true) (havi : endsWithAviCI inp.fileName = true)
    (hex : inp.fileExists = true) (hdur : (get_file_info inp.probe).duration ≠ 0)
    (hl : inp.launchOk = true) :
    convert_file inp = post_run inp.run := by
  simp [convert_file, htools, havi, hex, hdur, hl]

/-- Claim C7: a launched job completes iff the child exited with status
zero, cancellation was never observed, and the output file exists with
nonzero size; on completion the terminal progress update is exactly 100;
and a zero exit with missing or empty output is a Failed outcome. -/
theorem c7_completed_iff (inp : ConvertInput)
    (htools : inp.toolsResolved = true) (havi : endsWithAviCI inp.fileName = true)
    (hex : inp.fileExists = true) (hdur : (get_file_info inp.probe).duration ≠ 0)
    (hl : inp.launchOk = true) :
    ((convert_file inp).outcome = Outcome.completed ↔
      (inp.run.cancelledInLoop = false ∧ inp.run.cancelledAfter = false ∧
        inp.run.exitCode = 0 ∧ inp.run.outExists = true ∧ 0 < inp.run.outSize)) ∧
    ((convert_file inp).outcome = Outcome.completed →
      (convert_file inp).finalProgress = some 100) ∧
    (inp.run.exitCode = 0 → inp.run.cancelledInLoop = false →
      inp.run.cancelledAfter = false →
      ¬ (inp.run.outExists = true ∧ 0 < inp.run.outSize) →
      (convert_file inp).outcome = Outcome.failedEmptyOutput ∧
        is_failure_outcome (convert_file inp).outcome = true) := by
  rw [convert_file_launched inp htools havi hex hdur hl]
  rcases hr : inp.run with ⟨cil, ca, rc, oe, os⟩
  cases cil <;> cases ca <;> cases oe <;>
    by_cases hrc : rc = 0 <;> by_cases hos : 0 < os <;>
      simp_all [post_run, runFileState, is_failure_outcome]

/-- Witness for C7: a clean 1024-byte run completes with final progress
100. -/
theorem c7_completed_iff_witness :
    (convert_file c7WitInput).outcome = Outcome.completed ∧
    (convert_file c7WitInput).finalProgress = some 100 := by
  have h := c7_completed_iff c7WitInput rfl (by decide) rfl (by decide) rfl
  have hc : (convert_file c7WitInput).outcome = Outcome.completed :=
    h.1.mpr (by decide)
  exact ⟨hc, h.2.1 hc⟩

/-- Counterexample to claim C1 as stated: a job whose child exits with
status 1 leaving a 5-byte partial output reaches a Failed terminal outcome,
yet after the controller returns the non-empty 5-byte file is still at the
output path (the source deletes the output on failure only when its size is
zero, lines 755-759). -/
theorem c1_counterexample :
    is_failure_outcome (convert_file c1ExInput).outcome = true ∧
    (convert_file c1ExInput).outputAfter = some 5 := by decide

/-- Claim C1 as amended: after Cancelled no file remains at the output path
(deletion modelled as succeeding); after a Failed from a non-zero exit the
output is deleted only when it exists and is empty, so a non-empty partial
file remains exactly when the run left one; after a Failed from a zero exit
with missing/empty output nothing is deleted, so at most an empty file
remains. -/
theorem c1_amended (inp : ConvertInput)
    (htools : inp.toolsResolved = true) (havi : endsWithAviCI inp.fileName = true)
    (hex : inp.fileExists = true) (hdur : (get_file_info inp.probe).duration ≠ 0)
    (hl : inp.launchOk = true) :
    ((convert_file inp).outcome = Outcome.cancelled →
      (convert_file inp).outputAfter = none) ∧
    ((convert_file inp).outcome = Outcome.failedExit →
      (convert_file inp).outputAfter =
        (if inp.run.outExists = true ∧ inp.run.outSize ≠ 0
          then some inp.run.outSize else none)) ∧
    ((convert_file inp).outcome = Outcome.failedEmptyOutput →
      ((convert_file inp).outputAfter = none ∨
        (convert_file inp).outputAfter = some 0)) := by
  rw [convert_file_launched inp htools havi hex hdur hl]
  rcases hr : inp.run with ⟨cil, ca, rc, oe, os⟩
  cases cil <;> cases ca <;> cases oe <;>
    by_cases hrc : rc = 0 <;> by_cases hos : os = 0 <;>
      simp_all [post_run, runFileState, Nat.pos_iff_ne_zero]

/-- Witness for amended C1: a job cancelled mid-loop with a 999-byte
partial output leaves no file behind. -/
theorem c1_amended_witness :
    (convert_file c1WitInput).outputAfter = none :=
  (c1_amended c1WitInput rfl (by decide) rfl (by decide) rfl).1 (by decide)

/-- Counterexample to claim C5 as stated: a probe that parses successfully
with duration -1 satisfies "parsed duration ≤ 0", yet the controller does
not abort — the source gate is `if duration == 0` (line 602), so the
transcoder is launched (launch count 1) and the outcome is not
InspectionFailed. -/
theorem c5_counterexample :
    (get_file_info c5ExInput.probe).duration ≤ 0 ∧
    (convert_file c5ExInput).launchCalls = 1 ∧
    (convert_file c5ExInput).outcome ≠ Outcome.inspectionFailed := by decide

/-- Claim C5 as amended: if the probe exits non-zero, or its output is
malformed, or the parsed duration equals 0, the job takes the single
InspectionFailed outcome and the controller aborts before launching the
transcoder (launch count 0) and creates no output artifact; a negative
parsed duration does not abort. -/
theorem c5_amended (inp : ConvertInput)
    (htools : inp.toolsResolved = true) (havi : endsWithAviCI inp.fileName = true)
    (hex : inp.fileExists = true)
    (hprobe : inp.probe = ProbeOutcome.nonzeroExit ∨
      inp.probe = ProbeOutcome.malformed ∨
      (get_file_info inp.probe).duration = 0) :
    (convert_file inp).outcome = Outcome.inspectionFailed ∧
    (convert_file inp).probeCalls = 1 ∧
    (convert_file inp).launchCalls = 0 ∧
    (convert_file inp).outputAfter = inp.preOut := by
  have hd : (get_file_info inp.probe).duration = 0 := by
    rcases hprobe with h | h | h
    · simp [h, get_file_info]
    · simp [h, get_file_info]
    · exact h
  simp [convert_file, htools, havi, hex, hd]

/-- Witness for amended C5: a probe with non-zero exit aborts the job with
no launch and no output. -/
theorem c5_amended_witness :
    (convert_file c5WitInput).outcome = Outcome.inspectionFailed ∧
    (convert_file c5WitInput).probeCalls = 1 ∧
    (convert_file c5WitInput).launchCalls = 0 ∧
    (convert_file c5WitInput).outputAfter = none := by
  have h := c5_amended c5WitInput rfl (by decide) rfl (Or.inl rfl)
  exact ⟨h.1, h.2.1, h.2.2.1, h.2.2.2.trans rfl⟩

/-- Claim C6: a request whose path does not end in ".avi" case-insensitively
or whose file does not exist is rejected with an informational skip event —
not a failure — without probing, without launching the transcoder, and
without touching the output path. -/
theorem c6_skip (inp : ConvertInput) (htools : inp.toolsResolved = true)
    (h : endsWithAviCI inp.fileName = false ∨ inp.fileExists = false) :
    ((convert_file inp).outcome = Outcome.skippedNotAvi ∨
      (convert_file inp).outcome = Outcome.missingFile) ∧
    is_failure_outcome (convert_file inp).outcome = false ∧
    (convert_file inp).probeCalls = 0 ∧
    (convert_file inp).launchCalls = 0 ∧
    (convert_file inp).outputAfter = inp.preOut := by
  rcases h with h | h
  · simp [convert_file, htools, h, is_failure_outcome]
  · by_cases ha : endsWithAviCI inp.fileName = false
    · simp [convert_file, htools, ha, is_failure_outcome]
    · simp only [Bool.not_eq_false] at ha
      simp [convert_file, htools, ha, h, is_failure_outcome]

/-- Witness for C6: "notes.txt" is skipped with zero probe and launch
counts. -/
theorem c6_skip_witness :
    ((convert_file c6WitInput).outcome = Outcome.skippedNotAvi ∨
      (convert_file c6WitInput).outcome = Outcome.missingFile) ∧
    (convert_file c6WitInput).probeCalls = 0 ∧
    (convert_file c6WitInput).launchCalls = 0 := by
  have h := c6_skip c6WitInput rfl (Or.inl (by decide))
  exact ⟨h.1, h.2.2.1, h.2.2.2.1⟩

/-- Claim C8: every progress value applied to the progress display is the
computed percentage `out_time / duration * 100` clamped to [0,100]; the
division is guarded (zero duration yields 0); and when the elapsed time
lies within the duration no clamping occurs, the applied value being
exactly the formula. -/
theorem c8_progress_clamped (t d : ℚ) :
    set_ui_state_progress (progress_pct t d) ∈ Set.Icc (0 : ℚ) 100 ∧
    (d = 0 → progress_pct t d = 0) ∧
    (0 ≤ t → t ≤ d → 0 < d →
      set_ui_state_progress (progress_pct t d) = t / d * 100) := by
  refine ⟨?_, ?_, ?_⟩
  · rw [Set.mem_Icc]
    exact ⟨le_max_left 0 _, max_le (by norm_num) (min_le_left 100 _)⟩
  · intro hd; simp [progress_pct, hd]
  · intro ht htd hd
    have hdne : d ≠ 0 := ne_of_gt hd
    have h1 : progress_pct t d = t / d * 100 := by simp [progress_pct, hdne]
    have hnn : (0 : ℚ) ≤ t / d * 100 :=
      mul_nonneg (div_nonneg ht hd.le) (by norm_num)
    have hle : t / d * 100 ≤ 100 := by
      have h2 : t / d ≤ 1 := (div_le_one hd).mpr htd
      nlinarith
    rw [h1]
    unfold set_ui_state_progress
    rw [min_eq_right hle, max_eq_right hnn]

/-- Witness for C8 at out_time 30 of duration 120: the applied value is in
[0,100] and equals the unclamped formula. -/
theorem c8_progress_clamped_witness :
    set_ui_state_progress (progress_pct 30 120) ∈ Set.Icc (0 : ℚ) 100 ∧
    set_ui_state_progress (progress_pct 30 120) = 30 / 120 * 100 := by
  have h := c8_progress_clamped 30 120
  exact ⟨h.1, h.2.2 (by norm_num) (by norm_num) (by norm_num)⟩

/-- Counterexample to claim C9 as stated: in the state "cancel flag set,
pause event cleared" (a paused job that has just been cancelled), the
source's `pause_event.wait()` is still blocked — the wait consults only the
pause event (line 717), while the claim's wait would have ended. -/
theorem c9_counterexample :
    pause_wait_done ⟨true, false⟩ = false ∧
    pause_wait_done_spec ⟨true, false⟩ = true := by decide

/-- Claim C9 as amended: the cancel flag is checked at the top of every
iteration before the pause wait (a set flag exits the loop before any
wait); the pause wait is indefinite and ends only when the pause event is
set again (resume) — the cancel flag does not end it, so a cancelled paused
job stays blocked until resumed; and once cancellation is observed at an
iteration head no further progress events are emitted. -/
theorem c9_amended :
    (∀ s : LoopState, s.cancelFlag = true →
      loop_iteration s = IterAction.exitCancelled) ∧
    (∀ s : LoopState, loop_iteration s = IterAction.blockedOnPause →
      s.cancelFlag = false ∧ s.pauseFlag = false) ∧
    (∀ (c c' p : Bool), pause_wait_done ⟨c, p⟩ = pause_wait_done ⟨c', p⟩) ∧
    (∀ s : LoopState, emits_progress (loop_iteration s) = true →
      s.cancelFlag = false) ∧
    (∀ (xs ys : List (LoopState × ℚ)) (s : LoopState) (p : ℚ),
      s.cancelFlag = true → loop_events (xs ++ (s, p) :: ys) = loop_events xs) := by
  refine ⟨?_, ?_, ?_, ?_, ?_⟩
  · intro s h; simp [loop_iteration, h]
  · rintro ⟨c, p⟩ h
    cases c <;> cases p <;> simp_all [loop_iteration]
  · intro c c' p; rfl
  · rintro ⟨c, p⟩ h
    cases c <;> cases p <;> simp_all [loop_iteration, emits_progress]
  · intro xs ys s p h
    induction xs with
    | nil => simp [loop_events, h]
    | cons a tl ih =>
        rcases a with ⟨st, q⟩
        cases hst : st.cancelFlag <;> simp [loop_events, hst, ih]

/-- Witness for amended C9: a cancelled iteration head exits, and the
events of a trace whose second iteration observes the cancel flag are those
of the first iteration alone. -/
theorem c9_amended_witness :
    loop_iteration ⟨true, true⟩ = IterAction.exitCancelled ∧
    loop_events
        [((⟨false, true⟩ : LoopState), (10 : ℚ)), (⟨true, true⟩, 50),
          (⟨false, true⟩, 70)] =
      loop_events [((⟨false, true⟩ : LoopState), (10 : ℚ))] := by
  refine ⟨c9_amended.1 ⟨true, true⟩ rfl, ?_⟩
  exact c9_amended.2.2.2.2 [((⟨false, true⟩ : LoopState), (10 : ℚ))]
    [((⟨false, true⟩ : LoopState), (70 : ℚ))] ⟨true, true⟩ 50 rfl

/-- Counterexample to claim C10 as stated: with job 0 running and its
cancellation requested (shared cancel flag set), starting job 1 clears that
flag — an operation of one job mutating the cancellation flag governing
another, which the claim says never happens. -/
theorem c10_counterexample :
    cancel_flag_read 0 (cancel_op ⟨false, true, some 0⟩) = true ∧
    cancel_flag_read 0 (convert_start 1 (cancel_op ⟨false, true, some 0⟩)) = false := by
  decide

/-- Claim C10 as amended: the child-process handle, cancellation flag and
pause flag are single process-wide globals shared by every job — every job
reads the very same three cells; starting any job clears the shared cancel
flag and overwrites the shared process handle, cancelling sets the one flag
all jobs observe, and one pause/resume toggles the pause flag of every
job. -/
theorem c10_amended (j k : ℕ) (g : GlobalState) :
    cancel_flag_read j g = cancel_flag_read k g ∧
    pause_flag_read j g = pause_flag_read k g ∧
    process_handle_read j g = process_handle_read k g ∧
    cancel_flag_read j (convert_start k g) = false ∧
    cancel_flag_read j (cancel_op g) = true ∧
    pause_flag_read j (pause_resume g) = !(pause_flag_read k g) ∧
    process_handle_read j (convert_start k g) = some k :=
  ⟨rfl, rfl, rfl, rfl, rfl, rfl, rfl⟩

end AviToMp4
